import Mathlib

/-!
Shallow embedding of `glerchundi/kubelistener` (package `pkg/client`,
file `client.go`, second revision — the one with `InformerConfig` and the
three-entry resource creator map), together with the surrounding caller
(`KubeListener.Run`).

External effects (the HTTP round trip, the websocket frame read, x509 /
key-pair parsing, environment variables) are modelled as explicit inputs
or boolean oracles passed to the embedded functions; the control flow,
channel discipline and string construction are translated from the Go
source.  Go buffered-channel semantics are embedded explicitly: a plain
send `ch <- v` enqueues when the buffer has free capacity and blocks the
sender when it is full (it never drops).
-/

namespace Kubelistener

/-! ## Go buffered channels -/

/-- A Go buffered channel: a fixed capacity and a FIFO buffer. -/
structure Chan (α : Type) where
  cap : Nat
  buf : List α
deriving DecidableEq, Repr

/-- Outcome of a plain (blocking) Go send `ch <- v`. -/
inductive SendResult (α : Type) where
  /-- The value was enqueued; the new buffer contents are given. -/
  | sent (newBuf : List α)
  /-- The buffer is full: the sender blocks (the value is NOT dropped). -/
  | blocked
deriving DecidableEq, Repr

/-- Semantics of the plain Go send `ch <- v` on a buffered channel:
enqueue if there is room, otherwise the sender blocks. -/
def goSend {α : Type} (c : Chan α) (v : α) : SendResult α :=
  if c.buf.length < c.cap then .sent (c.buf ++ [v]) else .blocked

/-! ## Data model

The engine treats decoded payloads opaquely: `rc.item()` / `rc.list()`
produce zero values of the registered kind, and `json.Unmarshal` fills
them in.  We model the decoded objects as an opaque tag type. -/

/-- A decoded API object (item or collection); the engine never inspects
its fields, so it is abstract here. -/
inductive KObject where
  | pod
  | podList
  | replicationController
  | replicationControllerList
  | service
  | serviceList
  | decoded (tag : String)
deriving DecidableEq, Repr

/-- `kapi.WatchEvent`: a change notification with a wire-level type field
and the item payload. -/
structure WatchEvent where
  type : String
  object : KObject
deriving DecidableEq, Repr

/-- A value pushed onto the funnel channel (`chan interface\x7b\x7d` in the
source): either a watch event (from the Watcher) or a decoded list
(from the Lister). -/
inductive FunnelItem where
  | event (we : WatchEvent)
  | list (o : KObject)
deriving DecidableEq, Repr

/-- An error value sent on the error channel.  The Go code wraps these in
formatted messages; only the kind and a message payload are modelled. -/
inductive Err where
  | transport (msg : String)
  | readBody (msg : String)
  | httpStatus (code : Nat)
  | decode (msg : String)
  | dial (msg : String)
  | recv (msg : String)
deriving DecidableEq, Repr

/-! ## Resource codec registry

`resourceCreatorMap` maps a resource kind name to a creator producing the
zero "item" and "list" decode targets. -/

/-- Tag identifying one of the registered resource creators. -/
inductive CreatorTag where
  | pods
  | replicationControllers
  | services
deriving DecidableEq, Repr

/-- `rc.item()`: the zero item value produced by a creator. -/
def CreatorTag.item : CreatorTag → KObject
  | .pods => .pod
  | .replicationControllers => .replicationController
  | .services => .service

/-- `rc.list()`: the zero list value produced by a creator. -/
def CreatorTag.listZero : CreatorTag → KObject
  | .pods => .podList
  | .replicationControllers => .replicationControllerList
  | .services => .serviceList

/-- The static map `resourceCreatorMap` with keys "pods",
"replicationcontrollers" and "services"; lookup of any other key misses. -/
def resourceCreatorLookup (resource : String) : Option CreatorTag :=
  if resource = "pods" then some .pods
  else if resource = "replicationcontrollers" then some .replicationControllers
  else if resource = "services" then some .services
  else none

/-! ## Strings: base64 and Go fmt.Sprint -/

/-- The standard base64 alphabet used by Go `base64.StdEncoding`. -/
def base64Alphabet : List Char :=
  "ABCDEFGHIJKLMNOPQRSTUVWXYZabcdefghijklmnopqrstuvwxyz0123456789+/".data

/-- The base64 digit for a 6-bit value. -/
def b64Char (n : Nat) : Char := base64Alphabet.getD n 'A'

/-- Standard base64 of a byte list, with `=` padding, three input bytes
per four output characters. -/
def base64Chunks : List Nat → List Char
  | b0 :: b1 :: b2 :: rest =>
      let n := b0 * 65536 + b1 * 256 + b2
      b64Char (n / 262144) :: b64Char (n / 4096 % 64) :: b64Char (n / 64 % 64) ::
        b64Char (n % 64) :: base64Chunks rest
  | [b0, b1] =>
      let n := b0 * 65536 + b1 * 256
      [b64Char (n / 262144), b64Char (n / 4096 % 64), b64Char (n / 64 % 64), '=']
  | [b0] =>
      let n := b0 * 65536
      [b64Char (n / 262144), b64Char (n / 4096 % 64), '=', '=']
  | [] => []

/-- The bytes of a string, as Go `[]byte(s)` produces for ASCII content
(each char below 128 is one byte). -/
def strBytes (s : String) : List Nat := s.data.map Char.toNat

/-- Go `base64.StdEncoding.EncodeToString([]byte(s))`. -/
def base64Encode (s : String) : String := ⟨base64Chunks (strBytes s)⟩

/-- Go `fmt.Sprint` applied to string operands: operands are concatenated
and, because every adjacent pair consists of strings, NO separating
spaces are inserted.  In particular the first operand is NOT treated as
a format string. -/
def goSprintStrings (args : List String) : String := String.join args

/-- Go `strings.ToLower` for ASCII content (scheme strings are ASCII):
lowercases each character. -/
def asciiToLower (s : String) : String := ⟨s.data.map Char.toLower⟩

/-! ## Transport builder: `NewClient` -/

/-- One of the credential kinds accepted by the client; `unknownKind`
stands for any dynamic type other than the three named ones (the
`default` case of the Go type switch).  Certificate material is opaque
bytes. -/
inductive ClientAuth where
  | clientCertificate (cert key : List Nat)
  | token (t : String)
  | usernameAndPassword (user pass : String)
  | unknownKind
deriving DecidableEq, Repr

/-- The client configuration after URL parsing: the scheme and host of
the (non-empty) master URL, the credential, and optional CA bytes.
The empty-master-URL environment-discovery path is outside this model. -/
structure ClientConfig where
  scheme : String
  host : String
  auth : ClientAuth
  caCertificate : Option (List Nat)
deriving DecidableEq, Repr

/-- The derived client: whether `client.tls` is non-nil, whether a parsed
client certificate was stored into it, the single `Authorization` header
value held in `client.headers` (`none` when headers stay nil), and the
base URL (host plus the API root, no scheme). -/
structure Client where
  tlsDerived : Bool
  tlsHasClientCert : Bool
  authorization : Option String
  baseURL : String
deriving DecidableEq, Repr

/-- The construction-time error kinds of `NewClient`. -/
inductive NewClientErr where
  | invalidScheme (scheme : String)
  | caLoad
  | certRequiresSecure
  | keyPairGeneration
  | unknownAuthType
deriving DecidableEq, Repr

/-- Outcome of `NewClient`: a client, an error, or a run-time nil-pointer
dereference (the assignment `client.tls.Certificates = ...` executed
while `client.tls` is nil). -/
inductive NewClientResult where
  | ok (c : Client)
  | err (e : NewClientErr)
  | nilDeref
deriving DecidableEq, Repr

/-- Whether a `NewClientResult` is an error return. -/
def NewClientResult.isErr : NewClientResult → Bool
  | .err _ => true
  | _ => false

/-- Embedding of `NewClient` for a non-empty master URL that parses into
`cfg.scheme` and `cfg.host`.  `appendCertsFromPEM` is the x509
certificate-pool parse oracle; `x509KeyPairOk` is the
`tls.X509KeyPair` success oracle.  Control flow follows the source:
scheme check (the Go condition also names the empty scheme, which the
inequality subsumes); CA pool construction only when the scheme is
https AND CA bytes are present; then the credential type switch; the
client-certificate branch assigns through `client.tls`, which is nil
whenever the CA step did not allocate it. -/
def newClient (appendCertsFromPEM : List Nat → Bool)
    (x509KeyPairOk : List Nat → List Nat → Bool)
    (cfg : ClientConfig) : NewClientResult :=
  let scheme := asciiToLower cfg.scheme
  if ¬(scheme = "http" ∨ scheme = "https") then .err (.invalidScheme scheme)
  else
    let secure : Bool := scheme == "https"
    let caFails : Bool := secure && cfg.caCertificate.isSome
        && !(appendCertsFromPEM (cfg.caCertificate.getD []))
    if caFails then .err .caLoad
    else
      let tlsDerived : Bool := secure && cfg.caCertificate.isSome
      match cfg.auth with
      | .clientCertificate cert key =>
          if !secure then .err .certRequiresSecure
          else if !(x509KeyPairOk cert key) then .err .keyPairGeneration
          else if tlsDerived then
            .ok { tlsDerived := true, tlsHasClientCert := true,
                  authorization := none, baseURL := cfg.host ++ "/api/v1" }
          else .nilDeref
      | .token t =>
          .ok { tlsDerived := tlsDerived, tlsHasClientCert := false,
                authorization := some ("Bearer " ++ t),
                baseURL := cfg.host ++ "/api/v1" }
      | .usernameAndPassword user pass =>
          .ok { tlsDerived := tlsDerived, tlsHasClientCert := false,
                authorization := some ("Basic " ++
                  base64Encode (goSprintStrings ["%s:%s", user, pass])),
                baseURL := cfg.host ++ "/api/v1" }
      | .unknownKind => .err .unknownAuthType

/-! ## Resource URLs and `NewInformer` -/

/-- `Client.getResourcesURL`: the scheme gains an `s` exactly when
`client.tls` is non-nil, a `watch/` segment is inserted for the watch
variant, and the base URL already carries `/api/v1`. -/
def Client.getResourcesURL (c : Client) (schemePre ns resource : String)
    (watch : Bool) : String :=
  let scheme := if c.tlsDerived then schemePre ++ "s" else schemePre
  let watchSeg := if watch then "watch/" else ""
  scheme ++ "://" ++ c.baseURL ++ "/" ++ watchSeg ++ "namespaces/" ++ ns ++ "/" ++ resource

/-- `InformerConfig`: namespace, resource kind, selector, resync
interval, and whether a processor function was supplied
(`Processor != nil`). -/
structure InformerConfig where
  ns : String
  resource : String
  selector : String
  resyncInterval : Nat
  hasProcessor : Bool
deriving DecidableEq, Repr

/-- The derived informer: the list request URL, the watch URL, the
`Authorization` header attached to both the HTTP request and the
websocket config, the TLS flag shared by both transports, the resource
creator, the funnel capacity (`make(chan interface\x7b\x7d, 100)`), and the
stored configuration. -/
structure Informer where
  httpURL : String
  wsURL : String
  authorization : Option String
  tlsDerived : Bool
  creator : CreatorTag
  funnelCap : Nat
  config : InformerConfig
deriving DecidableEq, Repr

/-- Construction-time error kinds of `NewInformer`. -/
inductive NewInformerErr where
  | noProcessor
  | invalidResourceType (resource : String)
deriving DecidableEq, Repr

/-- Namespace defaulting in `NewInformer`: an empty configured namespace
falls back to the `POD_NAMESPACE` environment value, then to
"default". -/
def informerNamespace (ns podNamespaceEnv : String) : String :=
  if ns = "" then (if podNamespaceEnv = "" then "default" else podNamespaceEnv)
  else ns

/-- Embedding of `Client.NewInformer`: processor check, namespace
defaulting, building the list and watch URLs, then the registry lookup,
whose miss aborts construction.  `http.NewRequest` and
`websocket.NewConfig` succeed on the URL strings built here and are
not separate failure points in this model. -/
def Client.newInformer (c : Client) (config : InformerConfig)
    (podNamespaceEnv : String) : Except NewInformerErr Informer :=
  if !config.hasProcessor then .error .noProcessor
  else
    let ns := informerNamespace config.ns podNamespaceEnv
    let httpURL := c.getResourcesURL "http" ns config.resource false
    let wsURL := c.getResourcesURL "ws" ns config.resource true
    match resourceCreatorLookup config.resource with
    | none => .error (.invalidResourceType config.resource)
    | some creator =>
        .ok { httpURL := httpURL, wsURL := wsURL,
              authorization := c.authorization, tlsDerived := c.tlsDerived,
              creator := creator, funnelCap := 100, config := config }

/-! ## The Watcher task (`Informer.watch`)

`watch` first dials the websocket; on dial failure it sends the error on
`errChan` and returns.  Then it loops on
`select \x7b case <-stopChan: break; default: ... \x7d`.
Go semantics embedded here: a closed channel is always ready to receive,
and a ready case is preferred over `default`; `break` inside a `select`
terminates only the `select`, NOT the enclosing `for`, so taking the
stop case starts the next loop iteration. -/

/-- Result of one websocket frame read (`websocket.JSON.Receive`). -/
inductive RecvIn where
  | frame (we : WatchEvent)
  | recvErr (msg : String)
deriving DecidableEq, Repr

/-- Outcome of one iteration of the Watcher loop. -/
inductive WatchLoopOut where
  /-- The iteration finished and the loop runs again. -/
  | loopAgain (funnel : Chan FunnelItem) (errCh : Chan Err)
  /-- The function returned. -/
  | returned (funnel : Chan FunnelItem) (errCh : Chan Err)
  /-- The task is blocked in `funnelChan <- we` on a full funnel. -/
  | blockedFunnel
  /-- The task is blocked in `errChan <- err` on a full error channel. -/
  | blockedErr
deriving DecidableEq, Repr

/-- Whether the iteration left the task blocked on a channel send. -/
def WatchLoopOut.blocked : WatchLoopOut → Bool
  | .blockedFunnel => true
  | .blockedErr => true
  | _ => false

/-- Whether the iteration made the function return. -/
def WatchLoopOut.returns : WatchLoopOut → Bool
  | .returned _ _ => true
  | _ => false

/-- One iteration of the Watcher loop.  With the stop channel closed the
stop case is ready, is preferred over `default`, and its `break` exits
only the `select`: the loop just runs again.  Otherwise the `default`
branch reads one frame: a read error is sent on `errChan` followed by
`return`; a frame is pushed onto the funnel with a plain blocking send
and the loop continues. -/
def watchLoopIter (stopClosed : Bool) (funnel : Chan FunnelItem)
    (errCh : Chan Err) (input : RecvIn) : WatchLoopOut :=
  if stopClosed then .loopAgain funnel errCh
  else
    match input with
    | .recvErr msg =>
        match goSend errCh (.recv msg) with
        | .sent b => .returned funnel ⟨errCh.cap, b⟩
        | .blocked => .blockedErr
    | .frame we =>
        match goSend funnel (.event we) with
        | .sent b => .loopAgain ⟨funnel.cap, b⟩ errCh
        | .blocked => .blockedFunnel

/-- Outcome of the Watcher's dial phase (`websocket.DialConfig`). -/
inductive WatchConnectOut where
  /-- Dial succeeded; the task enters the frame loop. -/
  | streaming (errCh : Chan Err)
  /-- Dial failed; the error was sent and the function returned. -/
  | returned (errCh : Chan Err)
  /-- Dial failed and the task is blocked sending on a full error channel. -/
  | blockedErr
deriving DecidableEq, Repr

/-- The dial phase of `Informer.watch`: on failure, one error is sent on
`errChan` (a plain blocking send) and the function returns; on success
the loop is entered with the channels untouched. -/
def watchConnect (dialErr : Option String) (errCh : Chan Err) : WatchConnectOut :=
  match dialErr with
  | none => .streaming errCh
  | some msg =>
      match goSend errCh (.dial msg) with
      | .sent b => .returned ⟨errCh.cap, b⟩
      | .blocked => .blockedErr

/-! ## The Lister task (`Informer.list`) -/

/-- The observable outcome of one HTTP round trip in `list`: a transport
error from `ctxhttp.Do`, a body-read error, or a response with its
status code, the decode (`json.Unmarshal`) success flag and the decoded
collection. -/
inductive ListRound where
  | transportErr (msg : String)
  | readErr (msg : String)
  | response (status : Nat) (decodeOk : Bool) (v : KObject)
deriving DecidableEq, Repr

/-- Outcome of one iteration of the Lister loop. -/
inductive ListLoopOut where
  /-- The iteration finished and the next GET is issued immediately
  (the stop case of the resync `select` fired and its `break` exited
  only the `select`). -/
  | loopAgain (funnel : Chan FunnelItem) (errCh : Chan Err)
  /-- The iteration finished; the task waits one resync interval and
  then issues the next GET (`time.After` case, `continue`). -/
  | resyncWait (funnel : Chan FunnelItem) (errCh : Chan Err)
  /-- The function returned. -/
  | returned (funnel : Chan FunnelItem) (errCh : Chan Err)
  /-- Blocked in `funnelChan <- v` on a full funnel. -/
  | blockedFunnel
  /-- Blocked in `errChan <- err` on a full error channel. -/
  | blockedErr
deriving DecidableEq, Repr

/-- Whether the iteration made the function return. -/
def ListLoopOut.returns : ListLoopOut → Bool
  | .returned _ _ => true
  | _ => false

/-- Whether the iteration left the task blocked on a channel send. -/
def ListLoopOut.blocked : ListLoopOut → Bool
  | .blockedFunnel => true
  | .blockedErr => true
  | _ => false

/-- Send one diagnostic on the error channel and return (the shared shape
of the four error exits of `list`). -/
def listFailStop (funnel : Chan FunnelItem) (errCh : Chan Err) (e : Err) :
    ListLoopOut :=
  match goSend errCh e with
  | .sent b => .returned funnel ⟨errCh.cap, b⟩
  | .blocked => .blockedErr

/-- One iteration of the Lister loop, following the source order:
transport error, body-read error, non-200 status, decode error — each
sends exactly one diagnostic and returns.  On success the decoded
collection is pushed onto the funnel with a plain blocking send, then
`select \x7b case <-stopChan: break; case <-time.After(interval): continue \x7d`
runs: with stop closed that case is immediately ready (the fresh timer
is not) and its `break` exits only the `select`, so the loop — and with
it the next GET — runs again at once; otherwise the task waits out the
interval and continues. -/
def listIter (stopClosed : Bool) (funnel : Chan FunnelItem)
    (errCh : Chan Err) (round : ListRound) : ListLoopOut :=
  match round with
  | .transportErr msg => listFailStop funnel errCh (.transport msg)
  | .readErr msg => listFailStop funnel errCh (.readBody msg)
  | .response status decodeOk v =>
      if status ≠ 200 then listFailStop funnel errCh (.httpStatus status)
      else if !decodeOk then listFailStop funnel errCh (.decode "unmarshal")
      else
        match goSend funnel (.list v) with
        | .blocked => .blockedFunnel
        | .sent b =>
            if stopClosed then .loopAgain ⟨funnel.cap, b⟩ errCh
            else .resyncWait ⟨funnel.cap, b⟩ errCh

/-! ## The funnel-drain task and `Informer.Run`

The drain goroutine is
`for \x7b select \x7b case v := <-i.funnelChan: i.config.Processor(v) \x7d \x7d`:
its single `select` has one receive case and no stop case, and the loop
body contains no `return` or loop-terminating `break`, so no iteration
can make the goroutine return. -/

/-- Outcome of one iteration of the drain loop. -/
inductive DrainOut where
  /-- The iteration processed one value (or is still waiting for one)
  and the loop runs again. -/
  | loopAgain (funnel : Chan FunnelItem)
  /-- The goroutine returned.  No branch of the source produces this. -/
  | returned (funnel : Chan FunnelItem)
deriving DecidableEq, Repr

/-- Whether the iteration made the goroutine return. -/
def DrainOut.returns : DrainOut → Bool
  | .returned _ => true
  | _ => false

/-- One iteration of the drain loop: receive the next funnel value and
hand it to the processor, then loop; on an empty funnel the receive
blocks (modelled as looping in place).  There is no returning branch. -/
def drainIter (funnel : Chan FunnelItem) : DrainOut :=
  match funnel.buf with
  | [] => .loopAgain funnel
  | _ :: rest => .loopAgain ⟨funnel.cap, rest⟩

/-- Whether the drain goroutine has returned within `n` iterations. -/
def drainReturnedWithin : Nat → Chan FunnelItem → Bool
  | 0, _ => false
  | n + 1, f =>
      match drainIter f with
      | .returned _ => true
      | .loopAgain f' => drainReturnedWithin n f'

/-- `Informer.Run` closes `doneChan` by `defer` when it returns, which
happens exactly when `wg.Wait()` does, i.e. when the Watcher, the
Lister and the drain goroutine have all called `wg.Done()` by
returning.  This predicate says whether `doneChan` has been closed once
the Watcher and Lister have (or have not) returned and the drain has
run `n` iterations from funnel state `f`. -/
def runDoneClosedWithin (watchReturned listReturned : Bool) (n : Nat)
    (f : Chan FunnelItem) : Bool :=
  watchReturned && listReturned && drainReturnedWithin n f

/-! ## Error-set descriptions for `NewClient`

`newClientFailsSpecClaim` transcribes the specification's stated error
set word for word; `newClientFailsAmended` is the corrected error set.
Both are compared against the embedded `newClient`. -/

/-- The specification's claimed error condition for `NewClient`, as
worded: scheme not exactly http/https; CA bytes that fail to parse;
client-certificate credential with a non-https scheme; unrecognized
credential kind. -/
def newClientFailsSpecClaim (pCA : List Nat → Bool) (cfg : ClientConfig) : Bool :=
  let scheme := asciiToLower cfg.scheme
  (!(scheme == "http" || scheme == "https")) ||
  (match cfg.caCertificate with
   | some ca => !(pCA ca)
   | none => false) ||
  (match cfg.auth with
   | .clientCertificate _ _ => !(scheme == "https")
   | _ => false) ||
  (match cfg.auth with
   | .unknownKind => true
   | _ => false)

/-- The amended error condition for `NewClient`: as the claim, except
that CA bytes only matter when the scheme is https (the pool is only
built then), and a client-certificate key pair that fails to generate
is a further error case. -/
def newClientFailsAmended (pCA : List Nat → Bool)
    (kp : List Nat → List Nat → Bool) (cfg : ClientConfig) : Bool :=
  let scheme := asciiToLower cfg.scheme
  let schemeInvalid := !(scheme == "http" || scheme == "https")
  let caSuppliedFails := (scheme == "https") &&
      (match cfg.caCertificate with
       | some ca => !(pCA ca)
       | none => false)
  let certNonTLS :=
      (match cfg.auth with
       | .clientCertificate _ _ => !(scheme == "https")
       | _ => false)
  let certBadKeyPair := (scheme == "https") &&
      (match cfg.auth with
       | .clientCertificate c k => !(kp c k)
       | _ => false)
  let unknownKind :=
      (match cfg.auth with
       | .unknownKind => true
       | _ => false)
  schemeInvalid || caSuppliedFails || certNonTLS || certBadKeyPair || unknownKind

/-! ## Theorems -/

/-- C1 counterexample: with the funnel full (capacity 100, one hundred
queued values) and stop not fired, the Watcher's push of a received
frame leaves the task blocked on the send — the event is not dropped
and the producer does block, contrary to the claimed
non-blocking-drop discipline. -/
theorem funnel_full_send_blocks_cex :
    (watchLoopIter false ⟨100, List.replicate 100 (.list .serviceList)⟩ ⟨10, []⟩
      (.frame ⟨"ADDED", .decoded "c"⟩)).blocked = true := by
  decide

/-- C1 (amended): every push onto the funnel channel and every send onto
the error channel in the Watcher and the Lister is a plain blocking
Go send: with free capacity the value is appended to the channel
buffer (never dropped); on a full channel the producing task blocks
rather than dropping the value.  The conjuncts cover, in order: the
Watcher's frame push, the Lister's collection push, the Lister's
error sends (shared by its four error exits), the Watcher's
dial-failure error send, and the Watcher's frame-read-failure error
send. -/
theorem informer_sends_are_blocking :
    ∀ (f : Chan FunnelItem) (e : Chan Err) (we : WatchEvent) (v : KObject)
      (d : Err) (msg : String),
      (watchLoopIter false f e (.frame we) =
        if f.buf.length < f.cap then .loopAgain ⟨f.cap, f.buf ++ [.event we]⟩ e
        else .blockedFunnel) ∧
      (listIter false f e (.response 200 true v) =
        if f.buf.length < f.cap then .resyncWait ⟨f.cap, f.buf ++ [.list v]⟩ e
        else .blockedFunnel) ∧
      (listFailStop f e d =
        if e.buf.length < e.cap then .returned f ⟨e.cap, e.buf ++ [d]⟩
        else .blockedErr) ∧
      (watchConnect (some msg) e =
        if e.buf.length < e.cap then .returned ⟨e.cap, e.buf ++ [.dial msg]⟩
        else .blockedErr) ∧
      (watchLoopIter false f e (.recvErr msg) =
        if e.buf.length < e.cap then .returned f ⟨e.cap, e.buf ++ [.recv msg]⟩
        else .blockedErr) := by
  intro f e we v d msg
  refine ⟨?_, ?_, ?_, ?_, ?_⟩
  · by_cases h : f.buf.length < f.cap <;> simp [watchLoopIter, goSend, h]
  · by_cases h : f.buf.length < f.cap <;> simp [listIter, goSend, h]
  · by_cases h : e.buf.length < e.cap <;> simp [listFailStop, goSend, h]
  · by_cases h : e.buf.length < e.cap <;> simp [watchConnect, goSend, h]
  · by_cases h : e.buf.length < e.cap <;> simp [watchLoopIter, goSend, h]

/-- C2: with the stop channel closed, no task stops.  The Watcher's
iteration takes the stop case, whose break exits only the select, and
it loops again without returning; the Lister's iteration after a
successful list does not return and proceeds straight to the next GET;
and the drain loop has no returning branch at all. -/
theorem break_in_select_does_not_stop_tasks :
    (∀ (f : Chan FunnelItem) (e : Chan Err) (input : RecvIn),
        watchLoopIter true f e input = .loopAgain f e) ∧
    (∀ (f : Chan FunnelItem) (e : Chan Err) (v : KObject),
        (listIter true f e (.response 200 true v)).returns = false) ∧
    (listIter true ⟨100, []⟩ ⟨10, []⟩ (.response 200 true .serviceList) =
        .loopAgain ⟨100, [.list .serviceList]⟩ ⟨10, []⟩) ∧
    (∀ f : Chan FunnelItem, (drainIter f).returns = false) := by
  refine ⟨?_, ?_, by decide, ?_⟩
  · intro f e input
    simp [watchLoopIter]
  · intro f e v
    by_cases h : f.buf.length < f.cap <;>
      simp [listIter, goSend, h, ListLoopOut.returns]
  · intro f
    rcases f with ⟨cap, _ | ⟨a, rest⟩⟩ <;> rfl

/-- Helper: the drain goroutine has not returned after any number of
iterations, from any funnel state. -/
theorem drainReturnedWithin_eq_false :
    ∀ (n : Nat) (f : Chan FunnelItem), drainReturnedWithin n f = false := by
  intro n
  induction n with
  | zero => intro f; rfl
  | succ n ih =>
      intro f
      rcases f with ⟨cap, _ | ⟨a, rest⟩⟩ <;>
        simp [drainReturnedWithin, drainIter, ih]

/-- C3: the completion signal is never closed by `Informer.Run`: the
deferred close fires only once all three goroutines have returned, and
the drain goroutine cannot return within any number of iterations from
any funnel state, whatever the Watcher and the Lister do. -/
theorem informer_run_never_closes_done :
    ∀ (watchReturned listReturned : Bool) (n : Nat) (f : Chan FunnelItem),
      runDoneClosedWithin watchReturned listReturned n f = false := by
  intro wr lr n f
  simp [runDoneClosedWithin, drainReturnedWithin_eq_false]

/-- C4: each error exit of the Lister (transport error, body-read error,
non-200 status, decode error) sends exactly one diagnostic on the
error channel and returns without retrying, and the Watcher behaves
the same on dial failure and on frame-read failure.  The Lister's
iteration is a function of its own inputs alone, so a Watcher failure
leaves it unaffected. -/
theorem lister_watcher_fail_stop :
    ∀ (f : Chan FunnelItem) (e : Chan Err) (msg : String) (status : Nat)
      (d : Bool) (v : KObject),
      e.buf.length < e.cap →
      (listIter false f e (.transportErr msg) =
          .returned f ⟨e.cap, e.buf ++ [.transport msg]⟩) ∧
      (listIter false f e (.readErr msg) =
          .returned f ⟨e.cap, e.buf ++ [.readBody msg]⟩) ∧
      (status ≠ 200 → listIter false f e (.response status d v) =
          .returned f ⟨e.cap, e.buf ++ [.httpStatus status]⟩) ∧
      (listIter false f e (.response 200 false v) =
          .returned f ⟨e.cap, e.buf ++ [.decode "unmarshal"]⟩) ∧
      (watchConnect (some msg) e = .returned ⟨e.cap, e.buf ++ [.dial msg]⟩) ∧
      (watchLoopIter false f e (.recvErr msg) =
          .returned f ⟨e.cap, e.buf ++ [.recv msg]⟩) := by
  intro f e msg status d v h
  refine ⟨?_, ?_, ?_, ?_, ?_, ?_⟩
  · simp [listIter, listFailStop, goSend, h]
  · simp [listIter, listFailStop, goSend, h]
  · intro hs; simp [listIter, listFailStop, goSend, h, hs]
  · simp [listIter, listFailStop, goSend, h]
  · simp [watchConnect, goSend, h]
  · simp [watchLoopIter, goSend, h]

/-- C4 witness: concrete instances — a refused connection makes the
Lister emit one transport diagnostic and return, a 404 makes it emit
one status diagnostic and return, and a refused watch dial makes the
Watcher emit one diagnostic and return. -/
theorem lister_watcher_fail_stop_witness :
    listIter false ⟨100, []⟩ ⟨10, []⟩ (.transportErr "connection refused") =
        .returned ⟨100, []⟩ ⟨10, [.transport "connection refused"]⟩ ∧
    listIter false ⟨100, []⟩ ⟨10, []⟩ (.response 404 true .serviceList) =
        .returned ⟨100, []⟩ ⟨10, [.httpStatus 404]⟩ ∧
    watchConnect (some "connection refused") ⟨10, []⟩ =
        .returned ⟨10, [.dial "connection refused"]⟩ := by
  have h := lister_watcher_fail_stop ⟨100, []⟩ ⟨10, []⟩ "connection refused"
      404 true .serviceList (by decide)
  exact ⟨h.1, h.2.2.1 (by decide), h.2.2.2.2.1⟩

/-- C5: a resource kind missing from the creator registry makes informer
construction fail with an error — no informer value exists, so no task
can be started — and when a processor is supplied the error is
precisely the invalid-resource-type configuration error. -/
theorem unknown_resource_fails_construction :
    ∀ (c : Client) (cfg : InformerConfig) (env : String),
      resourceCreatorLookup cfg.resource = none →
      (∃ err, c.newInformer cfg env = .error err) ∧
      (cfg.hasProcessor = true →
        c.newInformer cfg env = .error (.invalidResourceType cfg.resource)) := by
  intro c cfg env h
  by_cases hp : cfg.hasProcessor
  · refine ⟨⟨.invalidResourceType cfg.resource, ?_⟩, fun _ => ?_⟩ <;>
      simp [Client.newInformer, hp, h]
  · refine ⟨⟨.noProcessor, ?_⟩, fun hc => absurd hc hp⟩
    simp [Client.newInformer, hp]

/-- C5 witness: constructing an informer for the unregistered kind
"widgets" fails with the invalid-resource-type error. -/
theorem unknown_resource_fails_construction_witness :
    Client.newInformer ⟨false, false, none, "h/api/v1"⟩
        ⟨"default", "widgets", "", 30, true⟩ "" =
      .error (.invalidResourceType "widgets") := by
  exact (unknown_resource_fails_construction ⟨false, false, none, "h/api/v1"⟩
      ⟨"default", "widgets", "", 30, true⟩ "" (by decide)).2 rfl

/-- C6: for username "u" and password "p" the client's Authorization
header is Basic followed by the base64 of the LITERAL format string
"%s:%s" concatenated with "u" and "p" (`fmt.Sprint` does not
interpolate), which differs from Basic followed by the base64 of
"u:p" that the specification states. -/
theorem basic_auth_header_uses_sprint_verbatim :
    newClient (fun _ => true) (fun _ _ => true)
        ⟨"http", "h", .usernameAndPassword "u" "p", none⟩ =
      .ok ⟨false, false, some ("Basic " ++ base64Encode "%s:%sup"), "h/api/v1"⟩ ∧
    base64Encode "%s:%sup" = "JXM6JXN1cA==" ∧
    ("Basic JXM6JXN1cA==" == "Basic " ++ base64Encode ("u" ++ ":" ++ "p")) = false := by
  refine ⟨by decide, by decide, by decide⟩

/-- C7 counterexample: with an https scheme, CA bytes that do parse, and
a client-certificate credential whose key pair fails to generate,
`NewClient` returns an error even though none of the four error
conditions stated by the specification holds. -/
theorem newclient_error_set_cex :
    ((newClient (fun _ => true) (fun _ _ => false)
        ⟨"https", "h", .clientCertificate [1] [2], some [3]⟩).isErr = true) ∧
    (newClientFailsSpecClaim (fun _ => true)
        ⟨"https", "h", .clientCertificate [1] [2], some [3]⟩ = false) := by
  refine ⟨by decide, by decide⟩

/-- C7 (amended): `NewClient` returns an error exactly when the scheme is
not http/https, or the scheme is https and supplied CA bytes fail to
parse, or a client-certificate credential is paired with a non-https
scheme, or a client-certificate key pair fails to generate under an
https scheme, or the credential kind is unrecognized.  (The remaining
non-ok outcome, the nil dereference, is not an error return.) -/
theorem newClient_error_characterization :
    ∀ (pCA : List Nat → Bool) (kp : List Nat → List Nat → Bool) (cfg : ClientConfig),
      (newClient pCA kp cfg).isErr = newClientFailsAmended pCA kp cfg := by
  intro pCA kp cfg
  rcases cfg with ⟨scheme, host, auth, ca⟩
  by_cases h1 : asciiToLower scheme = "http"
  · rcases ca with _ | ca <;> cases auth <;>
      simp [newClient, newClientFailsAmended, h1, NewClientResult.isErr]
  · by_cases h2 : asciiToLower scheme = "https"
    · rcases ca with _ | ca
      · cases auth with
        | clientCertificate c k =>
            cases hkp : kp c k <;>
              simp [newClient, newClientFailsAmended, h2, hkp, NewClientResult.isErr]
        | token t =>
            simp [newClient, newClientFailsAmended, h2, NewClientResult.isErr]
        | usernameAndPassword u p =>
            simp [newClient, newClientFailsAmended, h2, NewClientResult.isErr]
        | unknownKind =>
            simp [newClient, newClientFailsAmended, h2, NewClientResult.isErr]
      · cases hca : pCA ca
        · cases auth <;>
            simp [newClient, newClientFailsAmended, h2, hca, NewClientResult.isErr]
        · cases auth with
          | clientCertificate c k =>
              cases hkp : kp c k <;>
                simp [newClient, newClientFailsAmended, h2, hca, hkp,
                  NewClientResult.isErr]
          | token t =>
              simp [newClient, newClientFailsAmended, h2, hca, NewClientResult.isErr]
          | usernameAndPassword u p =>
              simp [newClient, newClientFailsAmended, h2, hca, NewClientResult.isErr]
          | unknownKind =>
              simp [newClient, newClientFailsAmended, h2, hca, NewClientResult.isErr]
    · rcases ca with _ | ca <;> cases auth <;>
        simp [newClient, newClientFailsAmended, h1, h2, beq_eq_false_iff_ne,
          NewClientResult.isErr]

/-- C8: the list request URL is scheme://host/api/v1/namespaces/ns/res
and the watch URL is scheme-ws://host/api/v1/watch/namespaces/ns/res,
where the scheme is the secure variant (https, wss) exactly when a TLS
configuration was derived; and the URLs stored in a constructed
informer are exactly these, at the resolved namespace. -/
theorem request_url_wire_format :
    (∀ (t hc : Bool) (a : Option String) (host ns resource : String),
      (Client.getResourcesURL ⟨t, hc, a, host ++ "/api/v1"⟩ "http" ns resource false =
        (if t then "https" else "http") ++ "://" ++ host ++ "/api/v1/namespaces/" ++
          ns ++ "/" ++ resource) ∧
      (Client.getResourcesURL ⟨t, hc, a, host ++ "/api/v1"⟩ "ws" ns resource true =
        (if t then "wss" else "ws") ++ "://" ++ host ++ "/api/v1/watch/namespaces/" ++
          ns ++ "/" ++ resource)) ∧
    (∀ (c : Client) (cfg : InformerConfig) (env : String) (inf : Informer),
      c.newInformer cfg env = .ok inf →
      inf.httpURL = c.getResourcesURL "http" (informerNamespace cfg.ns env)
          cfg.resource false ∧
      inf.wsURL = c.getResourcesURL "ws" (informerNamespace cfg.ns env)
          cfg.resource true) := by
  constructor
  · intro t hc a host ns resource
    constructor <;> cases t <;> simp [Client.getResourcesURL, String.append_assoc]
  · intro c cfg env inf h
    rcases cfg with ⟨cns, cres, csel, cri, chp⟩
    cases chp
    · simp [Client.newInformer] at h
    · simp only [Client.newInformer, Bool.not_true, Bool.false_eq_true,
        if_false, Bool.not_false, if_true] at h
      cases hl : resourceCreatorLookup cres <;> simp [hl] at h
      subst h
      exact ⟨rfl, rfl⟩

/-- C8 witness: with TLS derived, host "h", namespace "ns0" and resource
"services", the list URL is https://h/api/v1/namespaces/ns0/services,
and a concretely constructed informer stores exactly the URL built by
`getResourcesURL`. -/
theorem request_url_wire_format_witness :
    (Client.getResourcesURL ⟨true, false, none, "h" ++ "/api/v1"⟩ "http" "ns0"
        "services" false =
      (if true then "https" else "http") ++ "://" ++ "h" ++ "/api/v1/namespaces/" ++
        "ns0" ++ "/" ++ "services") ∧
    ((⟨"https://h/api/v1/namespaces/ns0/services",
        "wss://h/api/v1/watch/namespaces/ns0/services",
        none, true, .services, 100, ⟨"ns0", "services", "", 30, true⟩⟩ : Informer).httpURL =
      Client.getResourcesURL ⟨true, false, none, "h/api/v1"⟩ "http"
        (informerNamespace "ns0" "") "services" false) := by
  refine ⟨(request_url_wire_format.1 true false none "h" "ns0" "services").1,
    (request_url_wire_format.2 ⟨true, false, none, "h/api/v1"⟩
      ⟨"ns0", "services", "", 30, true⟩ ""
      ⟨"https://h/api/v1/namespaces/ns0/services",
        "wss://h/api/v1/watch/namespaces/ns0/services",
        none, true, .services, 100, ⟨"ns0", "services", "", 30, true⟩⟩ rfl).1⟩

/-- C9: a client-certificate credential with an https master URL but no
CA bytes drives `NewClient` into the nil-TLS-configuration
dereference (a run-time fault, not an error return), for every key
pair that generates successfully. -/
theorem clientcert_without_ca_nil_deref :
    ∀ (pCA : List Nat → Bool) (kp : List Nat → List Nat → Bool)
      (host : String) (c k : List Nat),
      kp c k = true →
      newClient pCA kp ⟨"https", host, .clientCertificate c k, none⟩ = .nilDeref := by
  intro pCA kp host c k h
  simp [newClient, asciiToLower, h]

/-- C9 witness: a concrete https configuration with a parsing key pair
and no CA bytes reaches the nil dereference. -/
theorem clientcert_without_ca_nil_deref_witness :
    newClient (fun _ => true) (fun _ _ => true)
        ⟨"https", "h", .clientCertificate [1] [2], none⟩ = .nilDeref := by
  exact clientcert_without_ca_nil_deref _ _ _ _ _ rfl

/-- C10: two informer configurations differing only in the selector
string produce the same construction outcome up to the derived request
data: identical list URL, watch URL and Authorization header (the
selector is never incorporated into any request). -/
theorem selector_does_not_affect_requests :
    ∀ (c : Client) (cfg : InformerConfig) (s env : String),
      (Client.newInformer c { cfg with selector := s } env).map
          (fun inf => (inf.httpURL, inf.wsURL, inf.authorization)) =
        (Client.newInformer c cfg env).map
          (fun inf => (inf.httpURL, inf.wsURL, inf.authorization)) := by
  intro c cfg s env
  rcases cfg with ⟨ns, res, sel, ri, hp⟩
  cases hp <;>
    simp only [Client.newInformer] <;>
    cases h : resourceCreatorLookup res <;>
    simp [h, Except.map]

end Kubelistener
